import Mathlib

/-!
Verification development for the Parkinson disease screening backend.

The Python services are shallowly embedded in Lean. Conventions:
* Python floats are idealized as exact rationals; every numeric literal of
  the source (0.50, 0.25, 0.80, 1e-8, ...) denotes the same rational here.
* Fallible Python code (try/except blocks, model calls that may raise) is
  embedded with `Except String`.
* External oracles (Keras model predictions, feature extractors, file
  reading) are parameters of the embedded functions, so every theorem
  quantifies over their behaviour.
* `np.std` leaves the rationals, so wherever the source computes a
  standard deviation the embedded function takes the deviation as an extra
  parameter, and the theorems characterize it by being nonnegative with
  square equal to the (embedded, exact) population variance.
* Wall-clock fields (`timestamp`) and logging are omitted, as are the raw
  byte contents of uploaded files.
-/

namespace ParkinsonApp

/-! ## Python import resolution for `multimodal_service.py`

`backend/app/services/multimodal_service.py` line 13 runs
`from app.services.dat_service_direct import DaTService`.
We model the top level of `dat_service_direct.py` by the list of names its
module body binds (imports, module constants, the class, the singleton and
its accessor), and a `from ... import name` by a lookup in that list.
-/

/-- All names bound at the top level of
`backend/app/services/dat_service_direct.py`: the imports (`sys`, `Path`,
`np`, `datetime`, `json`, `List`, `Dict`, `Optional`, `tf`, `keras`,
`cv2`), the constant `ml_models_path`, the class
`DaTScanAnalysisServiceDirect`, the singleton `_service_instance` and the
accessor `get_dat_analysis_service`. -/
def datServiceDirectModuleNames : List String :=
  ["sys", "Path", "np", "datetime", "json", "List", "Dict", "Optional",
   "tf", "keras", "cv2", "ml_models_path", "DaTScanAnalysisServiceDirect",
   "_service_instance", "get_dat_analysis_service"]

/-- Python `from m import name`: succeeds exactly when `name` is bound at
the top level of `m`, otherwise raises `ImportError`. -/
def pythonFromImport (moduleNames : List String) (name : String) : Except String Unit :=
  if moduleNames.contains name then Except.ok ()
  else Except.error ("ImportError: cannot import name " ++ name)

/-- Executing the module body of `multimodal_service.py`: its first
project-local statement is
`from app.services.dat_service_direct import DaTService` (line 13). -/
def importMultimodalModule : Except String Unit :=
  pythonFromImport datServiceDirectModuleNames "DaTService"

/-- Constructing `MultiModalAnalysisService` requires the defining module
to have been imported first; the constructor body itself then runs. -/
def constructMultiModalAnalysisService : Except String Unit :=
  match importMultimodalModule with
  | Except.error e => Except.error e
  | Except.ok _ => Except.ok ()

/-- `get_multimodal_service` constructs the singleton on first call
(`multimodal_service.py` lines 389-394). -/
def get_multimodal_service : Except String Unit :=
  constructMultiModalAnalysisService

/-! ## Speech service (`backend/app/services/speech_service.py`) -/

/-- The dictionary returned by `SpeechService.analyze_voice` (and by
`simple_speech_predictor.predict_from_features`). -/
structure VoiceResult where
  success : Bool
  diagnosis : String
  prediction : String
  probability : ℚ
  pd_probability : ℚ
  confidence : ℚ
  modality : String
  note : String
  deriving DecidableEq

/-- The hardcoded fallback dictionary of `analyze_voice` (lines 74-83 and
111-120); only the `note` field differs between the two fallback sites. -/
def baselineVoiceResult (note : String) : VoiceResult :=
  { success := true
    diagnosis := "Healthy"
    prediction := "Healthy"
    probability := 0.50
    pd_probability := 0.50
    confidence := 0.30
    modality := "voice"
    note := note }

/-- `SpeechService.analyze_voice` (lines 65-120). Parameters:
`predictorAvailable` models `self.predictor and self.predictor.is_available()`,
`extractorAvailable` models `self.feature_extractor`,
`extractFeatures` models `self.feature_extractor.extract_features(audio_path)`
(which may raise), `mockFeatures` the deterministic simulated features of the
extractor-less branch, and `predictFromFeatures` the model call (which may
raise). The function is total: every exception of the source is caught. -/
def analyze_voice {F : Type} (predictorAvailable : Bool) (extractorAvailable : Bool)
    (extractFeatures : Except String F) (mockFeatures : F)
    (predictFromFeatures : F → Except String VoiceResult) : VoiceResult :=
  if !predictorAvailable then
    baselineVoiceResult "Speech model not available - using baseline estimate"
  else
    match (if extractorAvailable then extractFeatures else Except.ok mockFeatures) with
    | Except.error e => baselineVoiceResult ("Analysis error: " ++ e)
    | Except.ok f =>
      match predictFromFeatures f with
      | Except.error e => baselineVoiceResult ("Analysis error: " ++ e)
      | Except.ok r =>
        { r with note :=
            if extractorAvailable then "Real acoustic features extracted"
            else "Using simulated features (extractor not available)" }

/-! ## Upload endpoints (`backend/app/api/v1/endpoints/analysis.py`) -/

/-- Outcome of an endpoint call: an `HTTPException` with a status code and
detail, or a successful JSON body. -/
inductive HttpResponse (α : Type) where
  | httpError (status : Nat) (detail : String)
  | body (payload : α)
  deriving DecidableEq

/-- Status code of a response, `none` on success. -/
def responseStatus {α : Type} : HttpResponse α → Option Nat
  | HttpResponse.httpError s _ => some s
  | HttpResponse.body _ => none

/-- Audio extensions accepted by `analyze_speech` (line 157). -/
def audioExtensions : List String := [".wav", ".mp3", ".m4a", ".flac", ".ogg"]

/-- Image extensions accepted by `analyze_dat_scan` (line 556). -/
def imageExtensions : List String := [".png", ".jpg", ".jpeg", ".dcm"]

/-- Python `str.lower()` on the character sequence (ASCII filenames). -/
def strToLower (s : String) : String := String.mk (s.data.map Char.toLower)

/-- Python `str.endswith(suffix)` on the character sequence. -/
def strEndsWith (s suffix : String) : Bool := suffix.data.isSuffixOf s.data

/-- `file.filename.lower().endswith(tuple_of_extensions)`. -/
def hasValidExtension (exts : List String) (filename : String) : Bool :=
  exts.any (fun e => strEndsWith (strToLower filename) e)

/-- The `/speech/analyze` endpoint (lines 142-211) up to the service call.
`serviceResult` models `speech_service.analyze_audio_from_bytes` at the
uploaded bytes: `none` when the service object is `None` is folded into
`speechServiceUp`; a `none` analysis result yields the 500 branch. -/
def analyze_speech {α : Type} (speechAnalysisAvailable : Bool) (filename : String)
    (fileSize : Option Nat) (speechServiceUp : Bool)
    (serviceResult : Option α) : HttpResponse α :=
  if !speechAnalysisAvailable then
    HttpResponse.httpError 503
      "Speech analysis service is not available. Please ensure all dependencies are installed."
  else if !(hasValidExtension audioExtensions filename) then
    HttpResponse.httpError 400
      "Invalid file format. Please upload an audio file (WAV, MP3, M4A, FLAC, or OGG)."
  else if (match fileSize with | some s => decide (50 * 1024 * 1024 < s) | none => false) then
    HttpResponse.httpError 400 "File size too large. Please upload a file smaller than 50MB."
  else if !speechServiceUp then
    HttpResponse.httpError 503 "Speech analysis service is not available."
  else
    match serviceResult with
    | none => HttpResponse.httpError 500
        "Speech analysis failed. Please try again with a different audio file."
    | some r => HttpResponse.body r

/-- The `/dat/analyze` endpoint (lines 531-562) up to the service call.
`filenames` are the names of the uploaded files, `serviceResult` the body
produced after saving the files and running the DaT service. -/
def analyze_dat_scan {α : Type} (datAnalysisAvailable : Bool) (filenames : List String)
    (serviceResult : α) : HttpResponse α :=
  if !datAnalysisAvailable then
    HttpResponse.httpError 503
      "DaT scan analysis service is not available. Model may not be trained yet."
  else if filenames.isEmpty then
    HttpResponse.httpError 400 "No files uploaded. Please upload DaT scan slices."
  else
    match filenames.find? (fun f => !(hasValidExtension imageExtensions f)) with
    | some f => HttpResponse.httpError 400
        ("Invalid file format for " ++ f ++ ". Please upload image files (PNG, JPG, JPEG, or DICOM).")
    | none => HttpResponse.body serviceResult

/-! ## DaT scan service (`backend/app/services/dat_service_direct.py`)

`_load_and_preprocess_scan` turns a scan directory into a
`(1, 16, 128, 128, 1)` float volume with entries in `[0, 1]`; we embed the
volume itself (batch and channel dimensions dropped) and the analysis that
follows. `np.std(slices)` is the one operation leaving the rationals, so
the embedded feature analysis takes the standard deviation `σ` as a
parameter; theorems about it characterize `σ` by `0 ≤ σ` and
`σ ^ 2 = volVar v`. -/

/-- A preprocessed DaT scan volume: 16 slices of 128 × 128 intensities. -/
def Volume : Type := Fin 16 → Fin 128 → Fin 128 → ℚ

/-- Sum of all `16 * 128 * 128` intensities of a volume. -/
def volSum (v : Volume) : ℚ :=
  ∑ s : Fin 16, ∑ h : Fin 128, ∑ w : Fin 128, v s h w

/-- `np.mean(slices)` (line 140). -/
def volMean (v : Volume) : ℚ := volSum v / (16 * 128 * 128)

/-- `np.var(slices)` (line 143), the population variance. -/
def volVar (v : Volume) : ℚ :=
  (∑ s : Fin 16, ∑ h : Fin 128, ∑ w : Fin 128, (v s h w - volMean v) ^ 2) / (16 * 128 * 128)

/-- `np.sum(slices > mean + 0.5 * std)` (lines 146-147): the number of
entries exceeding `mean + 0.5 * σ`. -/
def highIntensityCount (v : Volume) (σ : ℚ) : ℕ :=
  ((Finset.univ : Finset (Fin 16 × Fin 128 × Fin 128)).filter
    (fun p => volMean v + 0.5 * σ < v p.1 p.2.1 p.2.2)).card

/-- `high_intensity_ratio = np.sum(mask) / slices.size` (line 147). -/
def highIntensityFrac (v : Volume) (σ : ℚ) : ℚ :=
  (highIntensityCount v σ : ℚ) / (16 * 128 * 128)

/-- The center indices `64 - 32 ≤ j < 64 + 32` of the `[32:96]` slice
(lines 150-152). -/
def centerIdx : Finset (Fin 128) :=
  Finset.univ.filter (fun j => 32 ≤ (j : ℕ) ∧ (j : ℕ) < 96)

/-- Sum over `slices[:, 32:96, 32:96]`. -/
def centerSum (v : Volume) : ℚ :=
  ∑ s : Fin 16, ∑ h ∈ centerIdx, ∑ w ∈ centerIdx, v s h w

/-- `center_intensity = np.mean(center_region)` (line 153); the region has
`16 * 64 * 64` entries. -/
def centerMean (v : Volume) : ℚ := centerSum v / (16 * 64 * 64)

/-- `center_to_overall_ratio = center_intensity / (mean_intensity + 1e-8)`
(line 154). -/
def centerVsOverall (v : Volume) : ℚ := centerMean v / (volMean v + 1e-8)

/-- The heuristic score of `_analyze_scan_features` (lines 156-177):
base 0.5, adjusted by the three feature tests, then clipped to `[0, 1]`. -/
def pdScore (v : Volume) (σ : ℚ) : ℚ :=
  let base : ℚ := 0.5
  let s1 := if centerVsOverall v < 1.2 then base + 0.3
            else if 1.5 < centerVsOverall v then base - 0.3 else base
  let s2 := if highIntensityFrac v σ < 0.15 then s1 + 0.2
            else if 0.25 < highIntensityFrac v σ then s1 - 0.2 else s1
  let s3 := if volMean v < 0.3 then s2 + 0.1
            else if 0.5 < volMean v then s2 - 0.1 else s2
  if s3 < 0 then 0 else if 1 < s3 then 1 else s3

/-- Return value of `_analyze_scan_features` (lines 179-184). The source
dictionary keys are `pd_probability`, `mean_intensity`, `center_ratio` and
`high_intensity_ratio`; the last two are renamed here. -/
structure ScanFeatures where
  pd_probability : ℚ
  mean_intensity : ℚ
  center_vs_overall : ℚ
  high_intensity_frac : ℚ
  deriving DecidableEq

/-- `_analyze_scan_features` (lines 134-184), with `σ` standing for
`np.std(slices)`. -/
def analyzeScanFeatures (v : Volume) (σ : ℚ) : ScanFeatures :=
  { pd_probability := pdScore v σ
    mean_intensity := volMean v
    center_vs_overall := centerVsOverall v
    high_intensity_frac := highIntensityFrac v σ }

/-- `self.class_names` (line 31). -/
def datClassNames : List String := ["Healthy", "Parkinson"]

/-- Risk-level bucketing of `predict` (lines 218-224). -/
def datRiskLevel (confidence : ℚ) (predictionClass : ℕ) : String :=
  if 0.8 < confidence then (if predictionClass = 1 then "High" else "Low")
  else if 0.6 < confidence then "Moderate"
  else "Uncertain"

/-- Clinical interpretation text of `predict` (lines 227-236). -/
def datInterpretationText (predictionClass : ℕ) (confidence : ℚ) : String :=
  if predictionClass = 1 then
    if 0.8 < confidence then
      "Scan shows significant indicators of dopamine transporter deficit consistent with Parkinson\x27s Disease."
    else
      "Scan suggests possible dopamine transporter deficit. Further clinical evaluation recommended."
  else
    if 0.8 < confidence then
      "Scan appears normal with no significant indicators of dopamine transporter deficit."
    else
      "Scan shows normal patterns, but borderline findings suggest follow-up may be beneficial."

/-- `_get_recommendations` (lines 271-296). -/
def datRecommendations (predictionClass : ℕ) (confidence : ℚ) : List String :=
  (if predictionClass = 1 then
    ["Consult with a movement disorder specialist or neurologist",
     "Consider additional diagnostic tests (clinical examination, UPDRS assessment)",
     "Discuss treatment options including medication and therapy",
     "Monitor symptoms and disease progression regularly"] ++
    (if confidence < 0.7 then
      ["Consider repeat imaging in 6-12 months to confirm findings"] else [])
  else
    ["Continue regular health monitoring",
     "Maintain healthy lifestyle with exercise and balanced diet"] ++
    (if confidence < 0.7 then
      ["Consider follow-up imaging if symptoms develop"] else [])) ++
  ["This AI analysis should not replace professional medical diagnosis"]

/-- Successful return value of `DaTScanAnalysisServiceDirect.predict`
(lines 241-258); the `timestamp` key is omitted and the Python key
`class` is `predictionClass`.  The duplicate keys `probabilities.Healthy`
and `probabilities.Parkinson` coincide with `probability_healthy` and
`probability_parkinson` in the source and are not repeated. -/
structure DatPredictResult where
  success : Bool
  prediction : String
  predictionClass : ℕ
  confidence : ℚ
  probability_healthy : ℚ
  probability_parkinson : ℚ
  risk_level : String
  interpretation : String
  recommendations : List String
  diagnosis : String
  probability : ℚ
  deriving DecidableEq

/-- `predict` (lines 186-260) in the `self.model is None` case: the result
is built purely from `_analyze_scan_features` of the preprocessed volume
(the model blend on lines 199-206 is skipped). `σ` stands for
`np.std(slices)` as in `analyzeScanFeatures`. -/
def datPredictNoModel (v : Volume) (σ : ℚ) : DatPredictResult :=
  let features := analyzeScanFeatures v σ
  let prediction_proba := features.pd_probability
  let predictionClass : ℕ := if 0.5 < prediction_proba then 1 else 0
  let prediction_label := datClassNames.getD predictionClass "Healthy"
  let prob_parkinson := prediction_proba
  let prob_healthy := 1 - prediction_proba
  let confidence := max prob_healthy prob_parkinson
  { success := true
    prediction := prediction_label
    predictionClass := predictionClass
    confidence := confidence
    probability_healthy := prob_healthy
    probability_parkinson := prob_parkinson
    risk_level := datRiskLevel confidence predictionClass
    interpretation := datInterpretationText predictionClass confidence
    recommendations := datRecommendations predictionClass confidence
    diagnosis := prediction_label
    probability := prob_parkinson }

/-- The constant volume: every preprocessed pixel at intensity `c`.
`constVol 0` models a directory of all-black images, `constVol 1` one of
all-white images (both readable, both with standard deviation 0). -/
def constVol (c : ℚ) : Volume := fun _ _ _ => c

/-! ## Multi-modal fusion (`backend/app/services/multimodal_service.py`)

`analyze_comprehensive` first runs the per-modality services inside
try/except blocks, recording for each successful modality its Parkinson
probability and its confidence, then fuses the available modalities.
A `FusionInput` records the outcome of the three collection blocks
(`none`: input absent or the block raised). `np.std(predictions)` on line
205 is embedded through the parameter `σ`, characterized in the theorems
by `0 ≤ σ` and `σ ^ 2 = popVariance (availableProbs i)`. -/

/-- The three modalities (`self.weights` keys, line 31). -/
inductive Modality where
  | dat
  | handwriting
  | voice
  deriving DecidableEq, Fintype, Repr

/-- The Python dictionary key of a modality. -/
def modalityName : Modality → String
  | Modality.dat => "dat"
  | Modality.handwriting => "handwriting"
  | Modality.voice => "voice"

/-- `self.weights` (lines 31-35). -/
def weight : Modality → ℚ
  | Modality.dat => 0.50
  | Modality.handwriting => 0.25
  | Modality.voice => 0.25

/-- Probability and confidence recorded for one available modality
(`modality_predictions[m]`, `modality_confidences[m]`). -/
structure ModalityOutcome where
  prob : ℚ
  conf : ℚ
  deriving DecidableEq

/-- Outcome of the three collection blocks of `analyze_comprehensive`
(lines 83-176): `none` when the input was absent or the block raised. -/
structure FusionInput where
  dat : Option ModalityOutcome
  handwriting : Option ModalityOutcome
  voice : Option ModalityOutcome
  deriving DecidableEq

/-- Look up one modality in a `FusionInput`. -/
def modalityOutcome (i : FusionInput) : Modality → Option ModalityOutcome
  | Modality.dat => i.dat
  | Modality.handwriting => i.handwriting
  | Modality.voice => i.voice

/-- `available_modalities`, in the order the source appends them
(dat, handwriting, voice). -/
def availableModalities (i : FusionInput) : List Modality :=
  (if i.dat.isSome then [Modality.dat] else []) ++
  (if i.handwriting.isSome then [Modality.handwriting] else []) ++
  (if i.voice.isSome then [Modality.voice] else [])

/-- `modality_predictions[m]` (0 as a dummy for unavailable modalities,
which the fusion never reads). -/
def modalityProb (i : FusionInput) (m : Modality) : ℚ :=
  ((modalityOutcome i m).map ModalityOutcome.prob).getD 0

/-- `modality_confidences[m]` (0 as a dummy for unavailable modalities). -/
def modalityConf (i : FusionInput) (m : Modality) : ℚ :=
  ((modalityOutcome i m).map ModalityOutcome.conf).getD 0

/-- `list(modality_predictions.values())` (insertion order = availability
order). -/
def availableProbs (i : FusionInput) : List ℚ :=
  (availableModalities i).map (modalityProb i)

/-- `list(modality_confidences.values())`. -/
def availableConfs (i : FusionInput) : List ℚ :=
  (availableModalities i).map (modalityConf i)

/-- The available modalities as a set (for the specification-side subset
sums of claim C1). -/
def availFinset (i : FusionInput) : Finset Modality :=
  Finset.univ.filter (fun m => (modalityOutcome i m).isSome)

/-- `total_weight` (line 189). -/
def totalWeight (i : FusionInput) : ℚ :=
  ((availableModalities i).map weight).sum

/-- `weighted_sum` (lines 190-193). -/
def weightedSum (i : FusionInput) : ℚ :=
  ((availableModalities i).map (fun m => modalityProb i m * weight m)).sum

/-- `final_probability = weighted_sum / total_weight` (line 194). -/
def finalProbability (i : FusionInput) : ℚ := weightedSum i / totalWeight i

/-- `final_confidence = min(modality_confidences.values()) if
modality_confidences else 0.5` (line 197). -/
def finalConfidence (i : FusionInput) : ℚ :=
  match availableConfs i with
  | [] => 0.5
  | c :: cs => cs.foldl min c

/-- `final_diagnosis` (line 200): strict threshold at
`self.diagnosis_threshold = 0.5`. -/
def finalDiagnosis (i : FusionInput) : String :=
  if 0.5 < finalProbability i then "Parkinson\x27s Disease" else "Healthy"

/-- `np.mean` of a list (also used for the handwriting average on
line 134). -/
def listMean (xs : List ℚ) : ℚ := xs.sum / xs.length

/-- `np.var` of a list: the population variance, mean of squared
deviations from the mean. -/
def popVariance (xs : List ℚ) : ℚ :=
  (xs.map (fun x => (x - listMean xs) ^ 2)).sum / xs.length

/-- `agreement_score` (lines 203-207): `1 - std/0.5` when more than one
modality is available, else `1.0`; `σ` stands for `np.std(predictions)`. -/
def agreementScoreOf (i : FusionInput) (σ : ℚ) : ℚ :=
  if 1 < (availableModalities i).length then 1 - σ / 0.5 else 1

/-- Confidence-level bucketing (lines 210-215), with
`self.high_confidence_threshold = 0.80` and
`self.moderate_confidence_threshold = 0.60`. -/
def confidenceLevel (conf agreement : ℚ) : String :=
  if 0.80 < conf ∧ 0.85 < agreement then "High"
  else if 0.60 < conf then "Moderate"
  else "Low"

/-- The `fusion_results` dictionary (lines 218-226); `timestamp` and the
echoed `patient_id` of the outer dictionary are omitted. -/
structure FusionResults where
  final_diagnosis : String
  final_probability : ℚ
  confidence : ℚ
  confidence_level : String
  agreement_score : ℚ
  modalities_used : List Modality
  weights_applied : List (Modality × ℚ)
  deriving DecidableEq

/-- `results['fusion_results']`: either the error mapping of the early
return (lines 183-185) or the fused values. -/
inductive FusionOutcome where
  | err (msg : String)
  | fused (res : FusionResults)
  deriving DecidableEq

/-- The fields of the `results` dictionary of `analyze_comprehensive` that
the fusion stage writes (lines 68-76, 182-250); `timestamp`, `patient_id`
and `modality_results` are omitted. -/
structure AnalysisResults where
  modalities_analyzed : List Modality
  fusion_results : FusionOutcome
  clinical_interpretation : String
  recommendations : List String
  deriving DecidableEq

/-- `', '.join(modalities)`. -/
def joinModalities (ms : List Modality) : String :=
  String.intercalate ", " (ms.map modalityName)

/-- `_generate_interpretation` (lines 258-316). `fmt` models the Python
float formatting `f"{x:.1f}"`. -/
def generateInterpretation (fmt : ℚ → String) (diagnosis : String) (probability : ℚ)
    (confidence_level : String) (agreement_score : ℚ) (modalities : List Modality)
    (predictions : Modality → ℚ) : String :=
  let s0 := "Multi-modal analysis using " ++ toString modalities.length ++
    " modality(ies) " ++ "(" ++ joinModalities modalities ++ ") "
  let s1 := s0 ++
    (if diagnosis = "Parkinson\x27s Disease" then
      "indicates Parkinson\x27s disease with " ++ fmt (probability * 100) ++ "% probability. "
    else
      "suggests healthy status with " ++ fmt ((1 - probability) * 100) ++ "% confidence. ")
  let s2 := s1 ++
    (if 1 < modalities.length then
      (if 0.85 < agreement_score then "All modalities show strong agreement. "
       else if 0.70 < agreement_score then "Modalities show moderate agreement. "
       else "Modalities show some disagreement, suggesting need for additional evaluation. ")
    else "")
  let s3 := s2 ++
    (if confidence_level = "High" then
      "The analysis shows high confidence in the diagnosis. "
    else if confidence_level = "Moderate" then
      "The analysis shows moderate confidence. Additional clinical evaluation is recommended. "
    else
      "The analysis shows low confidence. Clinical confirmation is strongly recommended. ")
  let s4 := s3 ++
    (if Modality.dat ∈ modalities then
      (if 0.7 < predictions Modality.dat then
        "DaT scan shows reduced dopamine transporter binding consistent with PD. "
       else if predictions Modality.dat < 0.3 then
        "DaT scan shows normal dopamine transporter binding. "
       else "")
    else "")
  let s5 := s4 ++
    (if Modality.handwriting ∈ modalities then
      (if 0.7 < predictions Modality.handwriting then
        "Handwriting analysis reveals motor control difficulties typical of PD. "
       else if predictions Modality.handwriting < 0.3 then
        "Handwriting analysis shows normal motor control. "
       else "")
    else "")
  s5 ++
    (if Modality.voice ∈ modalities then
      (if 0.7 < predictions Modality.voice then
        "Voice analysis detects speech characteristics associated with PD. "
       else if predictions Modality.voice < 0.3 then
        "Voice analysis shows normal speech characteristics. "
       else "")
    else "")

/-- The user-facing name of a modality in the completeness recommendation
(lines 374-378). -/
def modalityLongName : Modality → String
  | Modality.dat => "DaT scan imaging"
  | Modality.handwriting => "handwriting analysis"
  | Modality.voice => "voice analysis"

/-- `_generate_recommendations` (lines 318-383). -/
def generateRecommendations (diagnosis : String) (confidence_level : String)
    (modalities : List Modality) : List String :=
  let base := ["Consult with a qualified neurologist for clinical confirmation and diagnosis"]
  let core :=
    if diagnosis = "Parkinson\x27s Disease" then
      base ++
      ["Consider comprehensive neurological examination including motor function assessment"] ++
      (if Modality.dat ∈ modalities then []
       else ["Consider dopamine transporter (DaT) scan imaging for confirmation"]) ++
      ["Monitor for progression of motor and non-motor symptoms",
       "Discuss treatment options including medication and lifestyle modifications"] ++
      (if confidence_level = "High" then []
       else ["Consider repeat assessment in 6-12 months to monitor progression"])
    else
      base ++
      ["Continue regular health monitoring and maintain healthy lifestyle"] ++
      (if confidence_level = "Low" then
        ["Consider repeat screening if symptoms develop or worsen"] else []) ++
      ["Be aware of early Parkinson\x27s symptoms: tremor, rigidity, bradykinesia, postural instability"]
  let missing := [Modality.dat, Modality.handwriting, Modality.voice].filter
    (fun m => m ∉ modalities)
  core ++
    (if missing.isEmpty then []
     else ["For comprehensive assessment, consider adding: " ++
            String.intercalate ", " (missing.map modalityLongName)])

/-- The fusion stage of `analyze_comprehensive` (lines 178-256), from the
collected modality outcomes to the returned results. -/
def fuse (fmt : ℚ → String) (i : FusionInput) (σ : ℚ) : AnalysisResults :=
  if (availableModalities i).length = 0 then
    { modalities_analyzed := []
      fusion_results := FusionOutcome.err "No modalities available for analysis"
      clinical_interpretation := ""
      recommendations := [] }
  else
    let final_probability := finalProbability i
    let final_confidence := finalConfidence i
    let final_diagnosis := finalDiagnosis i
    let agreement_score := agreementScoreOf i σ
    let confidence_level := confidenceLevel final_confidence agreement_score
    { modalities_analyzed := availableModalities i
      fusion_results := FusionOutcome.fused
        { final_diagnosis := final_diagnosis
          final_probability := final_probability
          confidence := final_confidence
          confidence_level := confidence_level
          agreement_score := agreement_score
          modalities_used := availableModalities i
          weights_applied := (availableModalities i).map (fun m => (m, weight m)) }
      clinical_interpretation := generateInterpretation fmt final_diagnosis
        final_probability confidence_level agreement_score (availableModalities i)
        (modalityProb i)
      recommendations := generateRecommendations final_diagnosis confidence_level
        (availableModalities i) }

/-- Return value of `DaTScanAnalysisServiceDirect.predict` as read by the
collection block of `analyze_comprehensive` (lines 102-108):
`parkinsonProb = none` models a result dictionary without a
`probabilities` key (or without a `Parkinson` entry), `confidence = none`
a result without a `confidence` key; both default to 0.5. -/
structure DatBlockResult where
  parkinsonProb : Option ℚ
  confidence : Option ℚ

/-- Return value of `HandwritingService.predict` as read on line 131:
the optional `pd_probability` key, defaulting to 0.5. -/
def HwBlockResult : Type := Option ℚ

/-- The DaT collection block (lines 84-115): attempted only for a
nonempty scan list; an exception anywhere in the block removes the
modality. -/
def datBlock {D : Type} (datPredict : List D → Except String DatBlockResult)
    (dat_scans : Option (List D)) : Option ModalityOutcome :=
  match dat_scans with
  | none => none
  | some scans =>
    if scans.isEmpty then none
    else
      match datPredict scans with
      | Except.error _ => none
      | Except.ok r => some { prob := r.parkinsonProb.getD 0.5, conf := r.confidence.getD 0.5 }

/-- The handwriting collection block (lines 117-154): analyzes spiral then
wave, averages the per-file `pd_probability` values (default 0.5) and uses
the placeholder confidence 0.70; an exception removes the modality. -/
def handwritingBlock {H : Type} (hwPredict : H → Except String HwBlockResult)
    (spiral wave : Option H) : Option ModalityOutcome :=
  if spiral.isSome || wave.isSome then
    let files := spiral.toList ++ wave.toList
    match files.mapM hwPredict with
    | Except.error _ => none
    | Except.ok rs => some { prob := listMean (rs.map (fun r => r.getD 0.5)), conf := 0.70 }
  else none

/-- The voice collection block (lines 156-176): reads `pd_probability` and
`confidence` from the speech service result (defaults 0.5); an exception
removes the modality. -/
def voiceBlock {V : Type} (voicePredict : V → Except String VoiceResult)
    (voice_file : Option V) : Option ModalityOutcome :=
  match voice_file with
  | none => none
  | some f =>
    match voicePredict f with
    | Except.error _ => none
    | Except.ok r => some { prob := r.pd_probability, conf := r.confidence }

/-- `MultiModalAnalysisService.analyze_comprehensive` (lines 42-256):
collection blocks followed by fusion. The per-modality services are
oracle parameters; `fmt` and `σ` are as in `fuse`. -/
def analyze_comprehensive {D H V : Type} (fmt : ℚ → String)
    (datPredict : List D → Except String DatBlockResult)
    (hwPredict : H → Except String HwBlockResult)
    (voicePredict : V → Except String VoiceResult)
    (dat_scans : Option (List D)) (handwriting_spiral handwriting_wave : Option H)
    (voice_file : Option V) (σ : ℚ) : AnalysisResults :=
  fuse fmt
    { dat := datBlock datPredict dat_scans
      handwriting := handwritingBlock hwPredict handwriting_spiral handwriting_wave
      voice := voiceBlock voicePredict voice_file }
    σ

/-! ## Concrete inputs used by witnesses and counterexamples -/

/-- A run with DaT (prob 0.8, conf 0.9) and voice (prob 0.6, conf 0.7). -/
def c1Input : FusionInput :=
  { dat := some { prob := 0.8, conf := 0.9 }
    handwriting := none
    voice := some { prob := 0.6, conf := 0.7 } }

/-- A run with two fully disagreeing modalities (probabilities 0 and 1)
that are both highly confident (0.9): the predictions have standard
deviation exactly 0.5, so the agreement score is 0. -/
def c2Input : FusionInput :=
  { dat := some { prob := 0, conf := 0.9 }
    handwriting := none
    voice := some { prob := 1, conf := 0.9 } }

/-- A run with two perfectly agreeing modalities (both 0.5): the
predictions have standard deviation 0. -/
def c3Input : FusionInput :=
  { dat := some { prob := 0.5, conf := 0.5 }
    handwriting := none
    voice := some { prob := 0.5, conf := 0.5 } }

/-- A run with all three modalities available. -/
def c7Input : FusionInput :=
  { dat := some { prob := 0.7, conf := 0.8 }
    handwriting := some { prob := 0.4, conf := 0.70 }
    voice := some { prob := 0.5, conf := 0.6 } }

/-- A run with three distinct confidences (minimum at voice). -/
def c9Input : FusionInput :=
  { dat := some { prob := 0.7, conf := 0.8 }
    handwriting := some { prob := 0.4, conf := 0.70 }
    voice := some { prob := 0.5, conf := 0.6 } }

/-! ## Helper lemmas -/

lemma ite_str_eq_iff {c : Prop} [Decidable c] {a b : String} (hab : a ≠ b) :
    ((if c then a else b) = a ↔ c) ∧ ((if c then a else b) = b ↔ ¬c) := by
  by_cases h : c <;> simp [h, hab, Ne.symm hab]

lemma sum_univ_modality (f : Modality → ℚ) :
    ∑ m : Modality, f m = f Modality.dat + f Modality.handwriting + f Modality.voice := by
  have h : (Finset.univ : Finset Modality) =
      insert Modality.dat (insert Modality.handwriting {Modality.voice}) := by decide
  rw [h, Finset.sum_insert (by decide), Finset.sum_insert (by decide), Finset.sum_singleton]
  ring

lemma list_sum_le_length (xs : List ℚ) (h : ∀ x ∈ xs, x ≤ 1) :
    xs.sum ≤ (xs.length : ℚ) := by
  induction xs with
  | nil => simp
  | cons a t ih =>
    have ha := h a (List.mem_cons_self a t)
    have ht := ih (fun x hx => h x (List.mem_cons_of_mem a hx))
    simp only [List.sum_cons, List.length_cons]
    push_cast
    linarith

lemma list_sum_sq_le_sum (xs : List ℚ) (h : ∀ x ∈ xs, 0 ≤ x ∧ x ≤ 1) :
    (xs.map (fun x => x ^ 2)).sum ≤ xs.sum := by
  calc (xs.map (fun x => x ^ 2)).sum ≤ (xs.map (fun x => x)).sum := by
        refine List.sum_le_sum ?_
        intro x hx
        nlinarith [(h x hx).1, (h x hx).2]
    _ = xs.sum := by simp

lemma sum_sq_dev_eq (xs : List ℚ) (c : ℚ) :
    (xs.map (fun x => (x - c) ^ 2)).sum =
      (xs.map (fun x => x ^ 2)).sum - 2 * c * xs.sum + (xs.length : ℚ) * c ^ 2 := by
  induction xs with
  | nil => simp
  | cons a t ih =>
    simp only [List.map_cons, List.sum_cons, List.length_cons, ih]
    push_cast
    ring

lemma popVariance_nonneg (xs : List ℚ) : 0 ≤ popVariance xs := by
  rw [popVariance]
  apply div_nonneg
  · apply List.sum_nonneg
    intro x hx
    obtain ⟨y, _, rfl⟩ := List.mem_map.mp hx
    positivity
  · positivity

lemma popVariance_eq (xs : List ℚ) (hne : xs ≠ []) :
    popVariance xs = (xs.map (fun x => x ^ 2)).sum / (xs.length : ℚ) - (listMean xs) ^ 2 := by
  have hn : (xs.length : ℚ) ≠ 0 := by
    exact_mod_cast (List.length_pos.mpr hne).ne'
  rw [popVariance, sum_sq_dev_eq, listMean]
  field_simp
  ring

lemma popVariance_le_quarter (xs : List ℚ) (hne : xs ≠ [])
    (h : ∀ x ∈ xs, 0 ≤ x ∧ x ≤ 1) : popVariance xs ≤ 1 / 4 := by
  have hn0 : (0 : ℚ) < (xs.length : ℚ) := by exact_mod_cast List.length_pos.mpr hne
  have hS0 : 0 ≤ xs.sum := List.sum_nonneg (fun x hx => (h x hx).1)
  have hSn : xs.sum ≤ (xs.length : ℚ) := list_sum_le_length xs (fun x hx => (h x hx).2)
  have hQ : (xs.map (fun x => x ^ 2)).sum ≤ xs.sum := list_sum_sq_le_sum xs h
  have hm0 : 0 ≤ listMean xs := by rw [listMean]; exact div_nonneg hS0 hn0.le
  have hm1 : listMean xs ≤ 1 := by rw [listMean]; exact (div_le_one hn0).mpr hSn
  have hq_le : (xs.map (fun x => x ^ 2)).sum / (xs.length : ℚ) ≤ listMean xs := by
    rw [listMean]
    gcongr
  rw [popVariance_eq xs hne]
  nlinarith [sq_nonneg (listMean xs - 1 / 2), hq_le, hm0, hm1]

lemma foldl_min_mem (cs : List ℚ) : ∀ c : ℚ, cs.foldl min c ∈ c :: cs := by
  induction cs with
  | nil => intro c; simp
  | cons d t ih =>
    intro c
    have h := ih (min c d)
    simp only [List.foldl_cons]
    rcases List.mem_cons.mp h with h1 | h1
    · rw [h1]
      rcases min_choice c d with h' | h' <;> rw [h'] <;> simp
    · simp [h1]

lemma foldl_min_le (cs : List ℚ) : ∀ c : ℚ, ∀ x ∈ c :: cs, cs.foldl min c ≤ x := by
  induction cs with
  | nil =>
    intro c x hx
    rw [List.mem_singleton] at hx
    simp [hx]
  | cons d t ih =>
    intro c x hx
    simp only [List.foldl_cons]
    rcases List.mem_cons.mp hx with h1 | h1
    · rw [h1]
      exact le_trans (ih (min c d) (min c d) (List.mem_cons_self _ _)) (min_le_left _ _)
    · rcases List.mem_cons.mp h1 with h2 | h2
      · rw [h2]
        exact le_trans (ih (min c d) (min c d) (List.mem_cons_self _ _)) (min_le_right _ _)
      · exact ih (min c d) x (List.mem_cons_of_mem _ h2)

lemma fuse_fusion_results (fmt : ℚ → String) (i : FusionInput) (σ : ℚ)
    (hne : availableModalities i ≠ []) :
    (fuse fmt i σ).fusion_results = FusionOutcome.fused
      { final_diagnosis := finalDiagnosis i
        final_probability := finalProbability i
        confidence := finalConfidence i
        confidence_level := confidenceLevel (finalConfidence i) (agreementScoreOf i σ)
        agreement_score := agreementScoreOf i σ
        modalities_used := availableModalities i
        weights_applied := (availableModalities i).map (fun m => (m, weight m)) } := by
  unfold fuse
  rw [if_neg (fun h => hne (List.length_eq_zero.mp h))]

lemma weightedSum_eq_finset (i : FusionInput) :
    weightedSum i = ∑ m ∈ availFinset i, weight m * modalityProb i m := by
  rw [weightedSum]
  obtain ⟨d, hw, vo⟩ := i
  rcases d with _ | a <;> rcases hw with _ | b <;> rcases vo with _ | c <;>
    (simp [availFinset, availableModalities, modalityOutcome, Finset.sum_filter,
      sum_univ_modality]) <;> ring

lemma totalWeight_eq_finset (i : FusionInput) :
    totalWeight i = ∑ m ∈ availFinset i, weight m := by
  rw [totalWeight]
  obtain ⟨d, hw, vo⟩ := i
  rcases d with _ | a <;> rcases hw with _ | b <;> rcases vo with _ | c <;>
    (simp [availFinset, availableModalities, modalityOutcome, Finset.sum_filter,
      sum_univ_modality]) <;> ring

lemma volSum_constVol (c : ℚ) : volSum (constVol c) = 262144 * c := by
  simp [volSum, constVol, Finset.sum_const, Finset.card_univ, nsmul_eq_mul]
  ring

lemma volMean_constVol (c : ℚ) : volMean (constVol c) = c := by
  rw [volMean, volSum_constVol]
  norm_num

lemma volVar_constVol (c : ℚ) : volVar (constVol c) = 0 := by
  simp [volVar, volMean_constVol, constVol]

lemma centerIdx_card : centerIdx.card = 64 := by decide

lemma centerSum_constVol (c : ℚ) : centerSum (constVol c) = 65536 * c := by
  simp [centerSum, constVol, Finset.sum_const, Finset.card_univ, nsmul_eq_mul, centerIdx_card]
  ring

lemma centerMean_constVol (c : ℚ) : centerMean (constVol c) = c := by
  rw [centerMean, centerSum_constVol]
  norm_num

lemma highIntensityCount_constVol (c : ℚ) : highIntensityCount (constVol c) 0 = 0 := by
  rw [highIntensityCount, Finset.card_eq_zero, Finset.filter_eq_empty_iff]
  intro p _
  rw [volMean_constVol]
  simp [constVol]

lemma highIntensityFrac_constVol (c : ℚ) : highIntensityFrac (constVol c) 0 = 0 := by
  rw [highIntensityFrac, highIntensityCount_constVol]
  norm_num

lemma pdScore_vZero : pdScore (constVol 0) 0 = 1 := by
  have h1 : centerVsOverall (constVol 0) = 0 := by
    rw [centerVsOverall, centerMean_constVol, volMean_constVol]
    norm_num
  rw [pdScore, h1, highIntensityFrac_constVol, volMean_constVol]
  norm_num

lemma pdScore_vOne : pdScore (constVol 1) 0 = 0.9 := by
  have h1 : centerVsOverall (constVol 1) = 100000000 / 100000001 := by
    rw [centerVsOverall, centerMean_constVol, volMean_constVol]
    norm_num
  rw [pdScore, h1, highIntensityFrac_constVol, volMean_constVol]
  norm_num

lemma confidenceLevel_cases (conf agr : ℚ) :
    (confidenceLevel conf agr = "High" ↔ 0.80 < conf ∧ 0.85 < agr) ∧
    (confidenceLevel conf agr = "Moderate" ↔ ¬(0.80 < conf ∧ 0.85 < agr) ∧ 0.60 < conf) ∧
    (confidenceLevel conf agr = "Low" ↔ ¬(0.80 < conf ∧ 0.85 < agr) ∧ ¬0.60 < conf) := by
  rw [confidenceLevel]
  by_cases h1 : (0.80 : ℚ) < conf ∧ (0.85 : ℚ) < agr
  · rw [if_pos h1]
    exact ⟨iff_of_true rfl h1, iff_of_false (by decide) (fun h => h.1 h1),
      iff_of_false (by decide) (fun h => h.1 h1)⟩
  · rw [if_neg h1]
    by_cases h2 : (0.60 : ℚ) < conf
    · rw [if_pos h2]
      exact ⟨iff_of_false (by decide) (fun h => h1 h), iff_of_true rfl ⟨h1, h2⟩,
        iff_of_false (by decide) (fun h => h.2 h2)⟩
    · rw [if_neg h2]
      exact ⟨iff_of_false (by decide) (fun h => h1 h), iff_of_false (by decide) (fun h => h2 h.2),
        iff_of_true rfl ⟨h1, h2⟩⟩

/-! ## Claim theorems -/

/-- Claim C1: for every run with a non-empty set of available modalities
whose probabilities lie in `[0, 1]`, `analyze_comprehensive` reports
`final_probability = (∑ w_m * p_m) / (∑ w_m)` over the available subset
with the fixed weights (DaT 0.50, handwriting 0.25, voice 0.25), and
`final_diagnosis` is `Parkinson's Disease` exactly when that probability
strictly exceeds 0.5, else `Healthy`. -/
theorem c1_weighted_average_and_threshold (fmt : ℚ → String) (i : FusionInput) (σ : ℚ)
    (hne : availableModalities i ≠ [])
    (hprob : ∀ m ∈ availFinset i, 0 ≤ modalityProb i m ∧ modalityProb i m ≤ 1) :
    ∃ fr, (fuse fmt i σ).fusion_results = FusionOutcome.fused fr ∧
      fr.final_probability =
        (∑ m ∈ availFinset i, weight m * modalityProb i m) /
          (∑ m ∈ availFinset i, weight m) ∧
      (fr.final_diagnosis = "Parkinson\x27s Disease" ↔ 0.5 < fr.final_probability) ∧
      (fr.final_diagnosis = "Healthy" ↔ ¬0.5 < fr.final_probability) := by
  refine ⟨_, fuse_fusion_results fmt i σ hne, ?_, ?_, ?_⟩
  · dsimp only
    rw [finalProbability, weightedSum_eq_finset, totalWeight_eq_finset]
  · dsimp only
    rw [finalDiagnosis]
    exact (ite_str_eq_iff (by decide)).1
  · dsimp only
    rw [finalDiagnosis]
    exact (ite_str_eq_iff (by decide)).2

/-- Witness for C1 at a concrete two-modality run. -/
theorem c1_witness :
    availableModalities c1Input ≠ [] ∧
    (∃ fr, (fuse (fun _ => "") c1Input 0).fusion_results = FusionOutcome.fused fr ∧
      fr.final_probability =
        (∑ m ∈ availFinset c1Input, weight m * modalityProb c1Input m) /
          (∑ m ∈ availFinset c1Input, weight m) ∧
      (fr.final_diagnosis = "Parkinson\x27s Disease" ↔ 0.5 < fr.final_probability) ∧
      (fr.final_diagnosis = "Healthy" ↔ ¬0.5 < fr.final_probability)) :=
  ⟨by decide, c1_weighted_average_and_threshold (fun _ => "") c1Input 0 (by decide)
    (fun m _ => by fin_cases m <;> norm_num [modalityProb, modalityOutcome, c1Input])⟩

/-- Claim C2 counterexample: on a run with two fully confident (0.9) but
fully disagreeing (0 vs 1) modalities and the exact standard deviation 0.5
of its predictions, the fused confidence exceeds 0.80 yet the reported
`confidence_level` is `Moderate`, not `High`: the source additionally
requires `agreement_score > 0.85` for `High`. -/
theorem c2_counterexample :
    0 ≤ (0.5 : ℚ) ∧
    (0.5 : ℚ) ^ 2 = popVariance (availableProbs c2Input) ∧
    (0.80 : ℚ) < finalConfidence c2Input ∧
    (fuse (fun _ => "") c2Input 0.5).fusion_results = FusionOutcome.fused
      { final_diagnosis := "Healthy"
        final_probability := 1 / 3
        confidence := 0.9
        confidence_level := "Moderate"
        agreement_score := 0
        modalities_used := [Modality.dat, Modality.voice]
        weights_applied := [(Modality.dat, 0.50), (Modality.voice, 0.25)] } ∧
    ("Moderate" : String) ≠ "High" := by
  refine ⟨by norm_num, ?_, ?_, ?_, by decide⟩
  · norm_num [popVariance, listMean, availableProbs, availableModalities, modalityProb,
      modalityOutcome, c2Input]
  · norm_num [finalConfidence, availableConfs, availableModalities, modalityConf,
      modalityOutcome, c2Input]
  · rw [fuse_fusion_results (fun _ => "") c2Input 0.5 (by decide)]
    norm_num [finalDiagnosis, finalProbability, finalConfidence, confidenceLevel,
      agreementScoreOf, weightedSum, totalWeight, availableModalities, availableConfs,
      availableProbs, modalityProb, modalityConf, modalityOutcome, weight, c2Input]

/-- Claim C2 (amended): the `confidence_level` of every fusion run is
`High` exactly when the fused confidence exceeds 0.80 AND the agreement
score exceeds 0.85; `Moderate` exactly when that fails and the confidence
exceeds 0.60; `Low` otherwise. -/
theorem c2_confidence_level_buckets (fmt : ℚ → String) (i : FusionInput) (σ : ℚ)
    (hne : availableModalities i ≠ []) :
    ∃ fr, (fuse fmt i σ).fusion_results = FusionOutcome.fused fr ∧
      (fr.confidence_level = "High" ↔ 0.80 < fr.confidence ∧ 0.85 < fr.agreement_score) ∧
      (fr.confidence_level = "Moderate" ↔
        ¬(0.80 < fr.confidence ∧ 0.85 < fr.agreement_score) ∧ 0.60 < fr.confidence) ∧
      (fr.confidence_level = "Low" ↔
        ¬(0.80 < fr.confidence ∧ 0.85 < fr.agreement_score) ∧ ¬0.60 < fr.confidence) := by
  refine ⟨_, fuse_fusion_results fmt i σ hne, ?_⟩
  dsimp only
  exact confidenceLevel_cases (finalConfidence i) (agreementScoreOf i σ)

/-- Witness for the amended C2 at a concrete two-modality run. -/
theorem c2_witness :
    ∃ fr, (fuse (fun _ => "") c2Input 0.5).fusion_results = FusionOutcome.fused fr ∧
      (fr.confidence_level = "High" ↔ 0.80 < fr.confidence ∧ 0.85 < fr.agreement_score) ∧
      (fr.confidence_level = "Moderate" ↔
        ¬(0.80 < fr.confidence ∧ 0.85 < fr.agreement_score) ∧ 0.60 < fr.confidence) ∧
      (fr.confidence_level = "Low" ↔
        ¬(0.80 < fr.confidence ∧ 0.85 < fr.agreement_score) ∧ ¬0.60 < fr.confidence) :=
  c2_confidence_level_buckets (fun _ => "") c2Input 0.5 (by decide)

/-- Claim C3: in every fusion run with at least two available modalities
whose probabilities lie in `[0, 1]`, the agreement score of the source is
`1 - σ/0.5` for `σ` the population standard deviation of the predictions
(characterized by `0 ≤ σ` and `σ² = popVariance`), and this value lies in
`[0, 1]`. -/
theorem c3_agreement_score_in_unit_interval (i : FusionInput) (σ : ℝ)
    (hlen : 2 ≤ (availableProbs i).length)
    (hmem : ∀ p ∈ availableProbs i, 0 ≤ p ∧ p ≤ 1)
    (hσ0 : 0 ≤ σ)
    (hσ : σ ^ 2 = ((popVariance (availableProbs i) : ℚ) : ℝ)) :
    0 ≤ 1 - σ / (0.5 : ℝ) ∧ 1 - σ / (0.5 : ℝ) ≤ 1 ∧
      ∀ σq : ℚ, (σq : ℝ) = σ →
        ((agreementScoreOf i σq : ℚ) : ℝ) = 1 - σ / (0.5 : ℝ) := by
  have hne : availableProbs i ≠ [] := by
    intro h
    rw [h] at hlen
    simp at hlen
  have hvar : popVariance (availableProbs i) ≤ 1 / 4 :=
    popVariance_le_quarter _ hne hmem
  have hσ2 : σ ^ 2 ≤ (1 / 4 : ℝ) := by
    rw [hσ, show (1 / 4 : ℝ) = ((1 / 4 : ℚ) : ℝ) by norm_num]
    exact_mod_cast hvar
  have hσhalf : σ ≤ 1 / 2 := by nlinarith [hσ2, hσ0]
  have hdiv : σ / (0.5 : ℝ) = 2 * σ := by
    rw [div_eq_iff (by norm_num : (0.5 : ℝ) ≠ 0)]
    ring
  refine ⟨by rw [hdiv]; linarith, by rw [hdiv]; linarith, ?_⟩
  intro σq hq
  have hlen' : 1 < (availableModalities i).length := by
    have hmap : (availableProbs i).length = (availableModalities i).length := by
      rw [availableProbs, List.length_map]
    omega
  rw [agreementScoreOf, if_pos hlen']
  push_cast
  rw [hq]

/-- Witness for C3 at a run with two agreeing modalities (deviation 0). -/
theorem c3_witness :
    2 ≤ (availableProbs c3Input).length ∧
    0 ≤ 1 - (0 : ℝ) / (0.5 : ℝ) ∧ 1 - (0 : ℝ) / (0.5 : ℝ) ≤ 1 := by
  have h4 : (0 : ℝ) ^ 2 = ((popVariance (availableProbs c3Input) : ℚ) : ℝ) := by
    have h0 : popVariance (availableProbs c3Input) = 0 := by
      norm_num [popVariance, listMean, availableProbs, availableModalities, modalityProb,
        modalityOutcome, c3Input]
    rw [h0]
    norm_num
  have main := c3_agreement_score_in_unit_interval c3Input 0 (by decide)
    (by norm_num [availableProbs, availableModalities, modalityProb, modalityOutcome, c3Input])
    le_rfl h4
  exact ⟨by decide, main.1, main.2.1⟩

/-- Claim C4: `multimodal_service.py` imports the name `DaTService` from
`dat_service_direct`, which binds no such name (it defines only
`DaTScanAnalysisServiceDirect` and its accessor), so constructing
`MultiModalAnalysisService` — in particular the first call of
`get_multimodal_service` — always fails with an `ImportError`. -/
theorem c4_multimodal_import_fails :
    constructMultiModalAnalysisService =
      Except.error "ImportError: cannot import name DaTService" ∧
    get_multimodal_service =
      Except.error "ImportError: cannot import name DaTService" ∧
    datServiceDirectModuleNames.contains "DaTService" = false ∧
    datServiceDirectModuleNames.contains "DaTScanAnalysisServiceDirect" = true := by
  exact ⟨rfl, rfl, by decide, by decide⟩

/-- Claim C5 counterexample: with the model missing, `predict` does NOT
return one fixed response for every readable scan input: the all-black and
the all-white volumes (both with standard deviation 0, supplied exactly)
receive Parkinson probabilities 1 and 0.9 respectively. -/
theorem c5_counterexample :
    volVar (constVol 0) = 0 ∧ volVar (constVol 1) = 0 ∧
    (datPredictNoModel (constVol 0) 0).probability_parkinson = 1 ∧
    (datPredictNoModel (constVol 1) 0).probability_parkinson = 0.9 ∧
    (datPredictNoModel (constVol 0) 0).probability_parkinson ≠
      (datPredictNoModel (constVol 1) 0).probability_parkinson := by
  have h0 : (datPredictNoModel (constVol 0) 0).probability_parkinson = 1 := pdScore_vZero
  have h1 : (datPredictNoModel (constVol 1) 0).probability_parkinson = 0.9 := pdScore_vOne
  refine ⟨volVar_constVol 0, volVar_constVol 1, h0, h1, ?_⟩
  rw [h0, h1]
  norm_num

/-- Claim C5 (amended): when its Keras model is missing, the DaT service
falls back not to a fixed hardcoded response but to the feature-based
heuristic `_analyze_scan_features` of the preprocessed volume: the
returned Parkinson probability is exactly the heuristic `pd_probability`
(which varies with image content), the healthy probability its complement,
the confidence their maximum, and the label `Parkinson` exactly when the
heuristic probability exceeds 0.5. -/
theorem c5_dat_fallback_feature_based (v : Volume) (σ : ℚ) :
    (datPredictNoModel v σ).probability_parkinson = (analyzeScanFeatures v σ).pd_probability ∧
    (datPredictNoModel v σ).probability_healthy =
      1 - (analyzeScanFeatures v σ).pd_probability ∧
    (datPredictNoModel v σ).confidence =
      max (1 - (analyzeScanFeatures v σ).pd_probability)
        ((analyzeScanFeatures v σ).pd_probability) ∧
    ((datPredictNoModel v σ).prediction = "Parkinson" ↔
      0.5 < (analyzeScanFeatures v σ).pd_probability) ∧
    ((datPredictNoModel v σ).prediction = "Healthy" ↔
      ¬0.5 < (analyzeScanFeatures v σ).pd_probability) := by
  refine ⟨rfl, rfl, rfl, ?_, ?_⟩
  · by_cases h : (0.5 : ℚ) < (analyzeScanFeatures v σ).pd_probability <;>
      simp [datPredictNoModel, datClassNames, h] <;> decide
  · by_cases h : (0.5 : ℚ) < (analyzeScanFeatures v σ).pd_probability <;>
      simp [datPredictNoModel, datClassNames, h] <;> decide

/-- Claim C6: whenever the speech predictor is unavailable, or an
exception is raised during feature extraction or during prediction,
`SpeechService.analyze_voice` returns (rather than propagates) the
hardcoded default with prediction `Healthy`, pd probability 0.50 and
confidence 0.30. -/
theorem c6_speech_fallback {F : Type} (predictorAvailable extractorAvailable : Bool)
    (extractFeatures : Except String F) (mockFeatures : F)
    (predictFromFeatures : F → Except String VoiceResult)
    (h : predictorAvailable = false ∨
      (∃ e, (if extractorAvailable then extractFeatures else Except.ok mockFeatures) =
        Except.error e) ∨
      (∃ f e, (if extractorAvailable then extractFeatures else Except.ok mockFeatures) =
        Except.ok f ∧ predictFromFeatures f = Except.error e)) :
    (analyze_voice predictorAvailable extractorAvailable extractFeatures mockFeatures
        predictFromFeatures).prediction = "Healthy" ∧
    (analyze_voice predictorAvailable extractorAvailable extractFeatures mockFeatures
        predictFromFeatures).pd_probability = 0.50 ∧
    (analyze_voice predictorAvailable extractorAvailable extractFeatures mockFeatures
        predictFromFeatures).confidence = 0.30 := by
  rcases h with h | ⟨e, he⟩ | ⟨f, e, hf, he⟩
  · subst h
    exact ⟨rfl, rfl, rfl⟩
  · cases predictorAvailable
    · exact ⟨rfl, rfl, rfl⟩
    · refine ⟨?_, ?_, ?_⟩ <;> simp [analyze_voice, he, baselineVoiceResult]
  · cases predictorAvailable
    · exact ⟨rfl, rfl, rfl⟩
    · refine ⟨?_, ?_, ?_⟩ <;> simp [analyze_voice, hf, he, baselineVoiceResult]

/-- Witness for C6: predictor unavailable at a concrete call. -/
theorem c6_witness :
    (analyze_voice (F := Unit) false true (Except.ok ()) ()
        (fun _ => Except.error "boom")).prediction = "Healthy" ∧
    (analyze_voice (F := Unit) false true (Except.ok ()) ()
        (fun _ => Except.error "boom")).pd_probability = 0.50 ∧
    (analyze_voice (F := Unit) false true (Except.ok ()) ()
        (fun _ => Except.error "boom")).confidence = 0.30 :=
  c6_speech_fallback false true (Except.ok ()) () (fun _ => Except.error "boom") (Or.inl rfl)

/-- Claim C7: the fusion computation is deterministic — identical modality
probabilities, confidences and prediction deviation yield identical
results, in particular identical final probability, diagnosis, agreement
score and confidence level. -/
theorem c7_fusion_deterministic (fmt : ℚ → String) (i₁ i₂ : FusionInput) (σ₁ σ₂ : ℚ)
    (hi : i₁ = i₂) (hσ : σ₁ = σ₂) :
    fuse fmt i₁ σ₁ = fuse fmt i₂ σ₂ ∧
    finalProbability i₁ = finalProbability i₂ ∧
    finalDiagnosis i₁ = finalDiagnosis i₂ ∧
    agreementScoreOf i₁ σ₁ = agreementScoreOf i₂ σ₂ ∧
    confidenceLevel (finalConfidence i₁) (agreementScoreOf i₁ σ₁) =
      confidenceLevel (finalConfidence i₂) (agreementScoreOf i₂ σ₂) := by
  subst hi
  subst hσ
  exact ⟨rfl, rfl, rfl, rfl, rfl⟩

/-- Witness for C7 at a concrete three-modality run. -/
theorem c7_witness :
    fuse (fun _ => "") c7Input 0 = fuse (fun _ => "") c7Input 0 ∧
    finalProbability c7Input = finalProbability c7Input ∧
    finalDiagnosis c7Input = finalDiagnosis c7Input ∧
    agreementScoreOf c7Input 0 = agreementScoreOf c7Input 0 ∧
    confidenceLevel (finalConfidence c7Input) (agreementScoreOf c7Input 0) =
      confidenceLevel (finalConfidence c7Input) (agreementScoreOf c7Input 0) :=
  c7_fusion_deterministic (fun _ => "") c7Input c7Input 0 0 rfl rfl

/-- Claim C8: the speech endpoint rejects (HTTP 400, no analysis) every
upload whose lowercased filename does not end in
`.wav`/`.mp3`/`.m4a`/`.flac`/`.ogg`, and the DaT endpoint rejects every
upload batch containing a file whose lowercased filename does not end in
`.png`/`.jpg`/`.jpeg`/`.dcm`. -/
theorem c8_endpoints_reject_invalid_extensions :
    (∀ (α : Type) (filename : String) (fileSize : Option Nat) (up : Bool) (res : Option α),
      hasValidExtension audioExtensions filename = false →
      responseStatus (analyze_speech true filename fileSize up res) = some 400) ∧
    (∀ (α : Type) (filenames : List String) (res : α) (f : String),
      f ∈ filenames →
      hasValidExtension imageExtensions f = false →
      responseStatus (analyze_dat_scan true filenames res) = some 400) := by
  constructor
  · intro α filename fileSize up res h
    simp [analyze_speech, h, responseStatus]
  · intro α filenames res f hf hv
    have hne : filenames.isEmpty = false := by
      cases filenames
      · simp at hf
      · rfl
    have hsome : (filenames.find? (fun g => !(hasValidExtension imageExtensions g))).isSome := by
      rw [List.find?_isSome]
      exact ⟨f, hf, by simp [hv]⟩
    obtain ⟨g, hg⟩ := Option.isSome_iff_exists.mp hsome
    simp [analyze_dat_scan, hne, hg, responseStatus]

/-- Witness for C8 on concrete invalid filenames. -/
theorem c8_witness :
    responseStatus (analyze_speech (α := Unit) true "voice_note.txt" none true none) = some 400 ∧
    responseStatus (analyze_dat_scan (α := Unit) true ["scan_001.bmp"] ()) = some 400 :=
  ⟨c8_endpoints_reject_invalid_extensions.1 Unit "voice_note.txt" none true none (by decide),
   c8_endpoints_reject_invalid_extensions.2 Unit ["scan_001.bmp"] () "scan_001.bmp"
     (List.mem_singleton.mpr rfl) (by decide)⟩

/-- Claim C9: in every fusion run with at least one available modality,
the fused confidence is the minimum of the per-modality confidences, so it
never exceeds any individual modality confidence. -/
theorem c9_fused_confidence_is_min (fmt : ℚ → String) (i : FusionInput) (σ : ℚ)
    (hne : availableModalities i ≠ []) :
    ∃ fr, (fuse fmt i σ).fusion_results = FusionOutcome.fused fr ∧
      fr.confidence ∈ availableConfs i ∧
      ∀ c ∈ availableConfs i, fr.confidence ≤ c := by
  have hconfs : availableConfs i ≠ [] := by
    rw [availableConfs]
    intro h
    exact hne (List.map_eq_nil.mp h)
  obtain ⟨c, cs, hc⟩ : ∃ c cs, availableConfs i = c :: cs := by
    rcases h' : availableConfs i with _ | ⟨c, cs⟩
    · exact absurd h' hconfs
    · exact ⟨c, cs, rfl⟩
  have hfc : finalConfidence i = cs.foldl min c := by
    rw [finalConfidence.eq_def, hc]
  refine ⟨_, fuse_fusion_results fmt i σ hne, ?_, ?_⟩ <;> dsimp only
  · rw [hfc, hc]
    exact foldl_min_mem cs c
  · intro x hx
    rw [hfc]
    exact foldl_min_le cs c x (hc ▸ hx)

/-- Witness for C9 at a concrete three-modality run. -/
theorem c9_witness :
    ∃ fr, (fuse (fun _ => "") c9Input 0).fusion_results = FusionOutcome.fused fr ∧
      fr.confidence ∈ availableConfs c9Input ∧
      ∀ c ∈ availableConfs c9Input, fr.confidence ≤ c :=
  c9_fused_confidence_is_min (fun _ => "") c9Input 0 (by decide)

/-- Claim C10: when no modality input is provided (scan list absent or
empty, no handwriting files, no voice file), `analyze_comprehensive`
returns early: `fusion_results` is exactly the error mapping, no
diagnosis, probability or confidence is produced,
`clinical_interpretation` stays empty and `recommendations` stays `[]`. -/
theorem c10_no_modalities_early_return {D H V : Type} (fmt : ℚ → String)
    (datPredict : List D → Except String DatBlockResult)
    (hwPredict : H → Except String HwBlockResult)
    (voicePredict : V → Except String VoiceResult)
    (dat_scans : Option (List D)) (σ : ℚ)
    (hds : dat_scans = none ∨ dat_scans = some []) :
    analyze_comprehensive fmt datPredict hwPredict voicePredict dat_scans none none none σ =
      { modalities_analyzed := []
        fusion_results := FusionOutcome.err "No modalities available for analysis"
        clinical_interpretation := ""
        recommendations := [] } := by
  rcases hds with h | h <;> subst h <;> rfl

/-- Witness for C10 with an absent scan list. -/
theorem c10_witness :
    analyze_comprehensive (D := Unit) (H := Unit) (V := Unit) (fun _ => "")
      (fun _ => Except.error "down") (fun _ => Except.error "down")
      (fun _ => Except.error "down") none none none none 0 =
      { modalities_analyzed := []
        fusion_results := FusionOutcome.err "No modalities available for analysis"
        clinical_interpretation := ""
        recommendations := [] } :=
  c10_no_modalities_early_return (fun _ => "") (fun _ => Except.error "down")
    (fun _ => Except.error "down") (fun _ => Except.error "down") none 0 (Or.inl rfl)

end ParkinsonApp
